import Mathlib

/-!
# Shallow embedding of the swapi-explorer resource/view-state layer

This file embeds, as executable Lean definitions, the parts of the
swapi-explorer client that carry the specified behaviour:

* the response-shape normalization helpers of the resource list component
  (`getItems`, `getTotalRecords`, `getTotalPages`, `handleNameSort`);
* the favorites and recently-viewed updaters of the resource detail
  component (`isFavorite`, `toggleFavorite`, `recordView`);
* the reference-parsing helpers of the related-item component
  (`extractTypeFromUrl`, `extractIdFromUrl`) and the fetch-enabling
  condition of its query;
* the request construction and error propagation of the API service
  (`getResources`, `getResourceById`, `getResourceByUrl`), with the HTTP
  transport abstracted as a function argument.

JavaScript `undefined`-able string fields are modelled as `Option String`;
JavaScript truthiness on strings (empty string is falsy) is modelled
explicitly.  Timestamps (`Date.now()`) are passed in as an explicit `now`
argument.
-/

namespace SwapiExplorer

/-- The six resource types of the API (`ResourceType` in `api/swapi.ts`),
which are exactly the keys of the `resourceConfig` record literals. -/
inductive ResourceType where
  | people
  | planets
  | films
  | species
  | vehicles
  | starships
deriving DecidableEq

/-- The string key of a resource type, as it appears in URLs and in the
`resourceConfig` records. -/
def ResourceType.key : ResourceType → String
  | .people => "people"
  | .planets => "planets"
  | .films => "films"
  | .species => "species"
  | .vehicles => "vehicles"
  | .starships => "starships"

/-- The own keys of the `resourceConfig` record literals: the six
resource-type strings. -/
def resourceConfigKeys : List String :=
  ["people", "planets", "films", "species", "vehicles", "starships"]

/-- The own property names of `Object.prototype`, inherited by every
JavaScript object literal (including the Annex-B `__proto__` accessor).
Every one of them reads back a truthy value — a method, the `Object`
constructor, or `Object.prototype` itself — so a bracket lookup
`resourceConfig[s]` with one of these names is truthy even though the
key is not an own key of the record. -/
def objectPrototypeProps : List String :=
  ["constructor", "hasOwnProperty", "isPrototypeOf", "propertyIsEnumerable",
   "toLocaleString", "toString", "valueOf", "__defineGetter__",
   "__defineSetter__", "__lookupGetter__", "__lookupSetter__", "__proto__"]

/-- Truthiness of the JavaScript lookup `resourceConfig[s]` on the
six-key record literal: own keys read their config entries, and the
inherited `Object.prototype` member names also read truthy values.  Any
other string reads `undefined`, which is falsy. -/
def resourceConfigTruthy (s : String) : Bool :=
  decide (s ∈ resourceConfigKeys) || decide (s ∈ objectPrototypeProps)

/-- JavaScript `a || b` for `a : string | undefined` and a string `b`:
yields `b` when `a` is `undefined` or the (falsy) empty string. -/
def jsOrString (a : Option String) (b : String) : String :=
  match a with
  | some s => if s = "" then b else s
  | none => b

/-- The fields of a search-result item's `properties` that the list
component reads (`properties.name`, `properties.title`, `properties.url`).
`name` is absent on films and `title` absent on the other kinds, so both
are `Option`. -/
structure SearchItemProps where
  name : Option String
  title : Option String
  url : String
deriving DecidableEq

/-- `SearchResultItem` of `api/swapi.ts` (fields the list component uses). -/
structure SearchResultItem where
  uid : String
  properties : SearchItemProps
  description : String
deriving DecidableEq

/-- `SearchResponse` of `api/swapi.ts`: the search-shaped envelope,
carrying a `result` array. -/
structure SearchResponse where
  message : String
  result : List SearchResultItem
deriving DecidableEq

/-- `ResourceListItem` of `api/swapi.ts`. -/
structure ResourceListItem where
  uid : String
  name : String
  url : String
deriving DecidableEq

/-- `PaginatedResponse` of `api/swapi.ts`: the list-shaped envelope,
carrying a `results` array and server-side totals. -/
structure PaginatedResponse where
  message : String
  total_records : Nat
  total_pages : Nat
  results : List ResourceListItem
deriving DecidableEq

/-- The `data` value held by the list component's query: `undefined`
before any response, or one of the two mutually exclusive envelope shapes.
The source classifies by duck-typing (`'result' in data` first, then
`'results' in data`); the two envelope types are disjoint, so the
classification is the constructor. -/
inductive ListData where
  | noData
  | search (r : SearchResponse)
  | paginated (r : PaginatedResponse)

/-- `getItems` of the resource list component: normalizes either envelope
into a list of `ResourceListItem`s.  Search-shaped items get
`name: properties.name || properties.title || 'Unknown'`. -/
def getItems : ListData → List ResourceListItem
  | .noData => []
  | .search r =>
      r.result.map (fun item =>
        { uid := item.uid
          name := jsOrString item.properties.name
                    (jsOrString item.properties.title "Unknown")
          url := item.properties.url })
  | .paginated r => r.results

/-- `getTotalRecords` of the resource list component. -/
def getTotalRecords : ListData → Nat
  | .noData => 0
  | .search r => r.result.length
  | .paginated r => r.total_records

/-- `getTotalPages` of the resource list component: search results are not
paginated by the API, so the search shape yields 1. -/
def getTotalPages : ListData → Nat
  | .noData => 0
  | .search _ => 1
  | .paginated r => r.total_pages

/-- The name-sort state of the list component: `null` = no sort,
`true` = ascending, `false` = descending. -/
abbrev NameSort := Option Bool

/-- The updater passed to `setNameSort` by `handleNameSort`: cycles
no-sort → ascending → descending → no-sort. -/
def handleNameSort : NameSort → NameSort
  | none => some true
  | some true => some false
  | some false => none

/-- `FavoriteItem` stored under the `resource-favorites` key. -/
structure FavoriteItem where
  id : String
  type : ResourceType
  name : String
  timestamp : Nat
deriving DecidableEq

/-- `isFavorite` of the resource detail component:
`favorites.some(item => item.id === id && item.type === validType)`. -/
def isFavorite (favorites : List FavoriteItem) (id : String)
    (ty : ResourceType) : Bool :=
  favorites.any (fun item => item.id == id && item.type == ty)

/-- `toggleFavorite` of the resource detail component, as the pure update
it applies to the favorites list.  The component computes `name` from the
loaded properties and `timestamp` from `Date.now()`; both are passed in
here.  (The `if (!properties) return` guard makes the call a no-op before
data loads; this embedding covers the calls that reach `setFavorites`.) -/
def toggleFavorite (favorites : List FavoriteItem) (id : String)
    (ty : ResourceType) (name : String) (now : Nat) : List FavoriteItem :=
  if isFavorite favorites id ty then
    favorites.filter (fun item => !(item.id == id && item.type == ty))
  else
    favorites ++ [{ id := id, type := ty, name := name, timestamp := now }]

/-- `RecentlyViewedItem` stored under the `resource-recently-viewed` key. -/
structure RecentlyViewedItem where
  id : String
  type : ResourceType
  name : String
  timestamp : Nat
deriving DecidableEq

/-- The recently-viewed recording of the resource detail component (the
spec's `recordView`): the updater passed to `setRecentlyViewed` in the
mount effect — filter out the same `(id, type)` key, prepend a fresh
entry, keep only the first 10. -/
def recordView (prev : List RecentlyViewedItem) (id : String)
    (ty : ResourceType) (name : String) (now : Nat) :
    List RecentlyViewedItem :=
  let filtered := prev.filter (fun item => !(item.id == id && item.type == ty))
  (({ id := id, type := ty, name := name, timestamp := now } :
      RecentlyViewedItem) :: filtered).take 10

/-- JavaScript `split` with a one-character separator, on a character
list: empty input yields one empty segment, a separator opens a new
segment.  Mirrors `String.prototype.split('/')`, which never returns an
empty array. -/
def jsSplitChars (sep : Char) : List Char → List (List Char)
  | [] => [[]]
  | c :: cs =>
      match jsSplitChars sep cs with
      | [] => if c = sep then [[], [c]] else [[c]]
      | r :: rs => if c = sep then [] :: r :: rs else (c :: r) :: rs

/-- JavaScript `url.split('/')` as a function on strings. -/
def jsSplit (sep : Char) (s : String) : List String :=
  (jsSplitChars sep s.data).map (fun cs => String.mk cs)

/-- `extractIdFromUrl`: `parts[parts.length - 1]` after `url.split('/')`
(`split` never yields an empty array, so the default is never used). -/
def extractIdFromUrl (url : String) : String :=
  (jsSplit '/' url).getLastD ""

/-- `extractTypeFromUrl`: reads `parts[parts.length - 2]` after
`url.split('/')` and returns it when the JavaScript lookup
`resourceConfig[segment]` is truthy, else `null`.  The `as ResourceType`
cast is erased at runtime, so the value kept is the raw segment string,
and inherited `Object.prototype` names pass the truthiness test.  When
the split has fewer than two segments the JavaScript index is out of
range, the lookup sees `undefined` and the result is `null`. -/
def extractTypeFromUrl (url : String) : Option String :=
  let parts := jsSplit '/' url
  if 2 ≤ parts.length then
    match parts.get? (parts.length - 2) with
    | some seg => if resourceConfigTruthy seg then some seg else none
    | none => none
  else
    none

/-- The `enabled` option of the `RelatedItem` query
(`enabled: !!url && !!type`): the fetch for a related reference is issued
only when this is `true`. -/
def relatedItemFetchEnabled (url : String) : Bool :=
  url != "" && (extractTypeFromUrl url).isSome

/-- Whether `RelatedItem` renders anything: `if (!type) return null`. -/
def relatedItemRendered (url : String) : Bool :=
  (extractTypeFromUrl url).isSome

/-- `validType` of the resource detail component:
`resourceConfig[type] ? type : 'people'`.  At runtime the kept value is
the raw route string (the TypeScript cast is erased), and inherited
`Object.prototype` names pass the truthiness test. -/
def validType (ty : String) : String :=
  if resourceConfigTruthy ty then ty else "people"

/-- An HTTP request issued through the axios `apiClient`: relative path
plus query parameters, in insertion order. -/
structure Request where
  path : String
  params : List (String × String)
deriving DecidableEq

/-- The outcome of a transport call, abstracting axios: either a decoded
response body or a thrown error.  `ε` is the error type, `α` the body. -/
abbrev Transport (ε α : Type) := Request → Except ε α

/-- The request `getResources` builds: `params = { page }` plus
`name: search` when `search` is truthy, against path `/{type}`. -/
def getResourcesRequest (ty : ResourceType) (page : Nat)
    (search : Option String) : Request :=
  { path := "/" ++ ty.key
    params := [("page", toString page)] ++
      (match search with
       | some s => if s = "" then [] else [("name", s)]
       | none => []) }

/-- `getResources` of `api/swapi.ts` over an abstract transport: builds
the request, and on a transport error logs and re-throws that error
(`catch (error) { console.error(...); throw error }` — the log is a side
effect outside the embedding). -/
def getResources {ε α : Type} (fetch : Transport ε α) (ty : ResourceType)
    (page : Nat) (search : Option String) : Except ε α :=
  match fetch (getResourcesRequest ty page search) with
  | .ok body => .ok body
  | .error e => .error e

/-- The request `getResourceById` builds: `GET /{type}/{id}`. -/
def getResourceByIdRequest (ty : ResourceType) (id : String) : Request :=
  { path := "/" ++ ty.key ++ "/" ++ id, params := [] }

/-- `getResourceById` of `api/swapi.ts` over an abstract transport, with
the same re-throwing catch block as `getResources`. -/
def getResourceById {ε α : Type} (fetch : Transport ε α)
    (ty : ResourceType) (id : String) : Except ε α :=
  match fetch (getResourceByIdRequest ty id) with
  | .ok body => .ok body
  | .error e => .error e

/-- The request `getResourceByUrl` builds: the full URL with the base
`https://swapi.tech/api` stripped, no parameters. -/
def getResourceByUrlRequest (url : String) : Request :=
  { path := url.replace "https://swapi.tech/api" "", params := [] }

/-- `getResourceByUrl` of `api/swapi.ts` over an abstract transport, with
the same re-throwing catch block as `getResources`. -/
def getResourceByUrl {ε α : Type} (fetch : Transport ε α)
    (url : String) : Except ε α :=
  match fetch (getResourceByUrlRequest url) with
  | .ok body => .ok body
  | .error e => .error e

/-- The request the resource detail view issues for a route type
parameter and id: `getResourceById(validType, id)` builds the path
`/${validType}/${id}` from the runtime string. -/
def detailFetchRequest (typeParam : String) (id : String) : Request :=
  { path := "/" ++ validType typeParam ++ "/" ++ id, params := [] }

/-! ## Helper lemmas -/

/-- The JavaScript string fallback never yields the empty string when its
right operand is non-empty. -/
theorem jsOrString_ne_empty (a : Option String) (b : String) (hb : b ≠ "") :
    jsOrString a b ≠ "" := by
  cases a with
  | none => simpa [jsOrString] using hb
  | some s => by_cases hs : s = "" <;> simp [jsOrString, hs, hb]

/-- A string that is neither a `resourceConfig` own key nor an inherited
`Object.prototype` name reads back a falsy lookup. -/
theorem resourceConfigTruthy_eq_false (s : String)
    (hsix : s ∉ resourceConfigKeys) (hproto : s ∉ objectPrototypeProps) :
    resourceConfigTruthy s = false := by
  simp [resourceConfigTruthy, hsix, hproto]

/-! ## Claim theorems -/

/-- C1: for every search-shaped response, `getItems` returns items whose
`name` (the display name) is `properties.name` falling back to
`properties.title` falling back to the literal `"Unknown"`, and is
therefore never empty. -/
theorem getItems_search_displayName_fallback (r : SearchResponse) :
    ∀ it ∈ getItems (ListData.search r),
      (∃ src ∈ r.result,
          it.name = jsOrString src.properties.name
            (jsOrString src.properties.title "Unknown")) ∧
      it.name ≠ "" := by
  intro it hit
  simp only [getItems, List.mem_map] at hit
  obtain ⟨src, hsrc, rfl⟩ := hit
  constructor
  · exact ⟨src, hsrc, rfl⟩
  · exact jsOrString_ne_empty _ _ (jsOrString_ne_empty _ _ (by decide))

/-- Witness for C1 at a concrete search response holding one film. -/
theorem getItems_search_displayName_fallback_witness :
    (∃ src ∈ (SearchResponse.mk "ok"
        [SearchResultItem.mk "1"
          (SearchItemProps.mk none (some "A New Hope") "https://swapi.tech/api/films/1")
          "A film"]).result,
        (ResourceListItem.mk "1" "A New Hope" "https://swapi.tech/api/films/1").name
          = jsOrString src.properties.name
              (jsOrString src.properties.title "Unknown")) ∧
    (ResourceListItem.mk "1" "A New Hope" "https://swapi.tech/api/films/1").name ≠ "" :=
  getItems_search_displayName_fallback
    (SearchResponse.mk "ok"
      [SearchResultItem.mk "1"
        (SearchItemProps.mk none (some "A New Hope") "https://swapi.tech/api/films/1")
        "A film"])
    (ResourceListItem.mk "1" "A New Hope" "https://swapi.tech/api/films/1")
    (by decide)

/-- C2: for every search-shaped response, `getTotalPages` is 1 regardless
of the number of results, and `getTotalRecords` equals the length of the
array `getItems` returns. -/
theorem search_totalPages_one_totalRecords_items_length (r : SearchResponse) :
    getTotalPages (ListData.search r) = 1 ∧
    getTotalRecords (ListData.search r) = (getItems (ListData.search r)).length := by
  refine ⟨rfl, ?_⟩
  simp [getTotalRecords, getItems]

/-- C3: the name-sort toggle cycles no-sort → ascending → descending →
no-sort, and composing it with itself three times is the identity on the
whole state set. -/
theorem handleNameSort_triple_toggle_identity :
    handleNameSort none = some true ∧
    handleNameSort (some true) = some false ∧
    handleNameSort (some false) = none ∧
    ∀ s : NameSort, handleNameSort (handleNameSort (handleNameSort s)) = s := by
  refine ⟨rfl, rfl, rfl, ?_⟩
  intro s
  match s with
  | none => rfl
  | some true => rfl
  | some false => rfl

/-- C4 counterexample: starting from a list that already contains the
`(people, "1")` key with timestamp 0, toggling twice (both times at clock
5) yields a list with a fresh timestamp, not the original list. -/
theorem toggleFavorite_double_toggle_not_original :
    toggleFavorite
      (toggleFavorite
        [{ id := "1", type := ResourceType.people, name := "Luke", timestamp := 0 }]
        "1" ResourceType.people "Luke" 5)
      "1" ResourceType.people "Luke" 5
    ≠ [{ id := "1", type := ResourceType.people, name := "Luke", timestamp := 0 }] := by
  decide

/-- C4 (amended): `toggleFavorite` removes the `(type, id)` entries when
one is present and otherwise appends a fresh entry with the given display
name and timestamp; toggling twice with identical arguments restores the
original list when the key was not initially present. -/
theorem toggleFavorite_toggle_behavior (favs : List FavoriteItem) (id : String)
    (ty : ResourceType) (name : String) (n1 n2 : Nat) :
    (isFavorite favs id ty = true →
      toggleFavorite favs id ty name n1
        = favs.filter (fun item => !(item.id == id && item.type == ty))) ∧
    (isFavorite favs id ty = false →
      toggleFavorite favs id ty name n1
          = favs ++ [{ id := id, type := ty, name := name, timestamp := n1 }] ∧
      toggleFavorite (toggleFavorite favs id ty name n1) id ty name n2 = favs) := by
  constructor
  · intro h
    simp [toggleFavorite, h]
  · intro h
    have happ : toggleFavorite favs id ty name n1
        = favs ++ [{ id := id, type := ty, name := name, timestamp := n1 }] := by
      simp [toggleFavorite, h]
    refine ⟨happ, ?_⟩
    have hall : ∀ a ∈ favs, (a.id == id && a.type == ty) = false := by
      intro a ha
      by_contra hcon
      have htrue : favs.any (fun item => item.id == id && item.type == ty) = true :=
        List.any_eq_true.mpr ⟨a, ha, by simpa using hcon⟩
      have hfalse : favs.any (fun item => item.id == id && item.type == ty) = false := h
      rw [htrue] at hfalse
      exact Bool.noConfusion hfalse
    have hfav2 : isFavorite
        (favs ++ [{ id := id, type := ty, name := name, timestamp := n1 }]) id ty
        = true := by
      simp [isFavorite]
    have hkeep : favs.filter (fun item => !(item.id == id && item.type == ty)) = favs :=
      List.filter_eq_self.mpr (fun a ha => by simp [hall a ha])
    have hstep : toggleFavorite
        (favs ++ [{ id := id, type := ty, name := name, timestamp := n1 }]) id ty name n2
        = (favs ++ [({ id := id, type := ty, name := name, timestamp := n1 } :
              FavoriteItem)]).filter
            (fun item => !(item.id == id && item.type == ty)) := by
      simp [toggleFavorite, hfav2]
    rw [happ, hstep, List.filter_append, hkeep]
    simp

/-- Witness for C4's amended theorem: removal at a concrete favorited
list, and the add-then-remove round trip from the empty list. -/
theorem toggleFavorite_toggle_behavior_witness :
    (toggleFavorite
        [{ id := "1", type := ResourceType.people, name := "Luke", timestamp := 0 }]
        "1" ResourceType.people "Luke" 5 = []) ∧
    (toggleFavorite
        (toggleFavorite [] "1" ResourceType.people "Luke" 5)
        "1" ResourceType.people "Luke" 7 = []) := by
  constructor
  · rw [(toggleFavorite_toggle_behavior
        [{ id := "1", type := ResourceType.people, name := "Luke", timestamp := 0 }]
        "1" ResourceType.people "Luke" 5 5).1 (by decide)]
    decide
  · exact ((toggleFavorite_toggle_behavior [] "1" ResourceType.people "Luke" 5 7).2
      (by decide)).2

/-- C5: `recordView` returns a list of at most 10 entries whose first
entry is the freshly recorded one and which contains exactly one entry
with the recorded `(type, id)` key. -/
theorem recordView_front_dedup_cap (prev : List RecentlyViewedItem) (id : String)
    (ty : ResourceType) (name : String) (now : Nat) :
    (recordView prev id ty name now).length ≤ 10 ∧
    (recordView prev id ty name now).head? =
      some { id := id, type := ty, name := name, timestamp := now } ∧
    (recordView prev id ty name now).countP
      (fun item => item.id == id && item.type == ty) = 1 := by
  have hx : recordView prev id ty name now
      = ({ id := id, type := ty, name := name, timestamp := now } : RecentlyViewedItem) ::
        (prev.filter (fun item => !(item.id == id && item.type == ty))).take 9 := rfl
  refine ⟨?_, ?_, ?_⟩
  · exact List.length_take_le 10 _
  · rw [hx]
    rfl
  · rw [hx, List.countP_cons]
    have h0 : ((prev.filter (fun item => !(item.id == id && item.type == ty))).take 9).countP
        (fun item => item.id == id && item.type == ty) = 0 := by
      apply List.countP_eq_zero.mpr
      intro a ha
      intro hq
      have ha' : a ∈ prev.filter (fun item => !(item.id == id && item.type == ty)) :=
        List.take_subset 9 _ ha
      have hp : (!(a.id == id && a.type == ty)) = true := (List.mem_filter.mp ha').2
      rw [hq] at hp
      exact Bool.noConfusion hp
    rw [h0]
    simp

/-- C6 counterexample: the segment `constructor` is not one of the six
entity kinds, yet the inherited `Object.prototype` lookup is truthy, so
the code parses it as a type and the related-item query is enabled — a
fetch is issued for the reference. -/
theorem extractTypeFromUrl_prototype_segment_fetches :
    extractTypeFromUrl "https://swapi.tech/api/constructor/9" = some "constructor" ∧
    relatedItemFetchEnabled "https://swapi.tech/api/constructor/9" = true ∧
    relatedItemRendered "https://swapi.tech/api/constructor/9" = true := by
  refine ⟨by decide, by decide, by decide⟩

/-- C6 (amended): a reference whose second-to-last `/`-segment is neither
one of the six entity kinds nor an inherited `Object.prototype` property
name parses to `null`, so the related-item query is never enabled (no
fetch) and the item is not rendered. -/
theorem extractTypeFromUrl_unknown_segment_none (url seg tail : String)
    (pre : List String)
    (hsplit : jsSplit '/' url = pre ++ [seg, tail])
    (hsix : seg ∉ resourceConfigKeys)
    (hproto : seg ∉ objectPrototypeProps) :
    extractTypeFromUrl url = none ∧
    relatedItemFetchEnabled url = false ∧
    relatedItemRendered url = false := by
  have ht := resourceConfigTruthy_eq_false seg hsix hproto
  have hmain : extractTypeFromUrl url = none := by
    simp only [extractTypeFromUrl]
    rw [hsplit]
    have hle : 2 ≤ (pre ++ [seg, tail]).length := by simp
    rw [if_pos hle]
    have hsub : (pre ++ [seg, tail]).length - 2 = pre.length := by simp
    have hget : (pre ++ [seg, tail]).get? pre.length = some seg := by
      have h1 := @List.getElem?_append_right _ pre [seg, tail] pre.length
        (le_refl pre.length)
      simpa using h1
    rw [hsub, hget]
    simp [ht]
  refine ⟨hmain, ?_, ?_⟩
  · simp [relatedItemFetchEnabled, hmain]
  · simp [relatedItemRendered, hmain]

/-- Witness for C6's amended theorem at a URL whose type segment is
`unknown`. -/
theorem extractTypeFromUrl_unknown_segment_none_witness :
    extractTypeFromUrl "https://swapi.tech/api/unknown/7" = none ∧
    relatedItemFetchEnabled "https://swapi.tech/api/unknown/7" = false ∧
    relatedItemRendered "https://swapi.tech/api/unknown/7" = false :=
  extractTypeFromUrl_unknown_segment_none "https://swapi.tech/api/unknown/7"
    "unknown" "7" ["https:", "", "swapi.tech", "api"] (by decide) (by decide)
    (by decide)

/-- C7: for every list-shaped envelope, the list operation reports exactly
the envelope's `total_pages` and `total_records`, whatever they are — the
totals are taken from the envelope, not recomputed client-side. -/
theorem paginated_totals_from_envelope (r : PaginatedResponse) :
    getTotalPages (ListData.paginated r) = r.total_pages ∧
    getTotalRecords (ListData.paginated r) = r.total_records :=
  ⟨rfl, rfl⟩

/-- C9: each API service operation re-raises a transport error unchanged:
when the underlying call fails, the operation's result is that same error,
never a normal result or a default. -/
theorem api_error_branch_rethrows {ε α : Type} (fetch : Transport ε α)
    (ty : ResourceType) (page : Nat) (search : Option String)
    (id url : String) (e : ε) :
    (fetch (getResourcesRequest ty page search) = .error e →
      getResources fetch ty page search = .error e) ∧
    (fetch (getResourceByIdRequest ty id) = .error e →
      getResourceById fetch ty id = .error e) ∧
    (fetch (getResourceByUrlRequest url) = .error e →
      getResourceByUrl fetch url = .error e) := by
  refine ⟨?_, ?_, ?_⟩ <;> intro h
  · simp [getResources, h]
  · simp [getResourceById, h]
  · simp [getResourceByUrl, h]

/-- Witness for C9 with a transport that always fails. -/
theorem api_error_branch_rethrows_witness :
    getResources (fun _ => (Except.error "network down" : Except String Unit))
        ResourceType.people 1 none = Except.error "network down" ∧
    getResourceById (fun _ => (Except.error "network down" : Except String Unit))
        ResourceType.people "1" = Except.error "network down" ∧
    getResourceByUrl (fun _ => (Except.error "network down" : Except String Unit))
        "https://swapi.tech/api/people/1" = Except.error "network down" := by
  have h := @api_error_branch_rethrows String Unit
    (fun _ => Except.error "network down") ResourceType.people 1 none
    "1" "https://swapi.tech/api/people/1" "network down"
  exact ⟨h.1 rfl, h.2.1 rfl, h.2.2 rfl⟩

/-- C10 counterexample: the route type parameter `constructor` is not one
of the six known entity types, yet the inherited `Object.prototype`
lookup is truthy, so `validType` keeps it instead of substituting
`people`, and the detail view fetches `/constructor/9`, not
`/people/9`. -/
theorem detail_validType_prototype_param_kept :
    validType "constructor" ≠ "people" ∧
    detailFetchRequest "constructor" "9" ≠ getResourceByIdRequest ResourceType.people "9" ∧
    detailFetchRequest "constructor" "9" = { path := "/constructor/9", params := [] } := by
  refine ⟨by decide, by decide, by decide⟩

/-- C10 (amended): a detail-route type parameter that is neither one of
the six known kinds nor an inherited `Object.prototype` property name is
silently replaced by `people`, and the detail view fetches
`/people/{id}` rather than treating the request as unresolvable. -/
theorem detail_validType_unknown_falls_back_people (s id : String)
    (hsix : s ∉ resourceConfigKeys)
    (hproto : s ∉ objectPrototypeProps) :
    validType s = "people" ∧
    detailFetchRequest s id = getResourceByIdRequest ResourceType.people id := by
  have ht := resourceConfigTruthy_eq_false s hsix hproto
  have hv : validType s = "people" := by simp [validType, ht]
  refine ⟨hv, ?_⟩
  simp [detailFetchRequest, getResourceByIdRequest, hv, ResourceType.key]

/-- Witness for C10's amended theorem at the unknown route type
`droids`. -/
theorem detail_validType_unknown_falls_back_people_witness :
    validType "droids" = "people" ∧
    detailFetchRequest "droids" "4" = getResourceByIdRequest ResourceType.people "4" :=
  detail_validType_unknown_falls_back_people "droids" "4" (by decide) (by decide)

end SwapiExplorer
